import Mathlib

/-!
Verification of the simple banking service (`src/main.py`).

The SQLite `accounts` table is modelled as a list of rows (`Store`); the
`UPDATE ... WHERE account_number = ?` statement is a map over the rows, and
`SELECT ... WHERE account_number = ?` with `fetchone` is `List.find?`.
Balances and amounts are modelled as rationals (exact arithmetic standing in
for the numeric column).  Each HTTP operation is a pure function returning
the response (`Except HTTPException α`, mirroring `raise HTTPException`)
together with the table state after commit or rollback: every error path in
the source either raises before any write or rolls the transaction back, so
on an error the returned store is the input store.
-/

namespace Banking

/-- A row of the `accounts` table / the `Account` response model. -/
structure Account where
  id : Nat
  account_number : String
  account_holder : String
  balance : ℚ
deriving DecidableEq, Repr

/-- The `accounts` table: a list of rows. -/
abbrev Store := List Account

/-- `raise HTTPException(status_code=..., detail=...)`. -/
structure HTTPException where
  status_code : Nat
  detail : String
deriving DecidableEq, Repr

/-- The `Transfer` request body. -/
structure Transfer where
  from_account_number : String
  to_account_number : String
  amount : ℚ
deriving DecidableEq, Repr

/-- The success payload returned by `transfer_funds`. -/
structure TransferResult where
  message : String
  from_account : String
  to_account : String
  amount : ℚ
deriving DecidableEq, Repr

/-- `SELECT * FROM accounts WHERE account_number = ?` followed by `fetchone()`:
the first row whose `account_number` matches, if any. -/
def findByNumber (s : Store) (number : String) : Option Account :=
  s.find? (fun a => a.account_number == number)

/-- `UPDATE accounts SET balance = ? WHERE account_number = ?`: overwrite the
balance of every row matching the number (unique in practice). -/
def updateBalance (s : Store) (number : String) (newBalance : ℚ) : Store :=
  s.map (fun a => if a.account_number == number then { a with balance := newBalance } else a)

/-- The `AUTOINCREMENT` id the store assigns to the next inserted row. -/
def nextId (s : Store) : Nat :=
  (s.foldr (fun a m => max a.id m) 0) + 1

/-- `create_account` (src/main.py:84-108).  The randomly generated 10-digit
account number is passed in explicitly (`number`), modelling the outcome of
`generate_account_number()`; an `INSERT` violating the `UNIQUE` constraint on
`account_number` raises `sqlite3.Error`, caught and re-raised as a 500. -/
def create_account (holder : String) (initial_deposit : ℚ) (number : String) (s : Store) :
    Except HTTPException Account × Store :=
  if initial_deposit < 0 then
    (.error ⟨400, "Initial deposit cannot be negative."⟩, s)
  else if (findByNumber s number).isSome then
    (.error ⟨500, "Failed to create account due to a database error: UNIQUE constraint failed: accounts.account_number"⟩, s)
  else
    let acct : Account := ⟨nextId s, number, holder, initial_deposit⟩
    (.ok acct, s ++ [acct])

/-- `deposit` (src/main.py:115-136). -/
def deposit (account_number : String) (amount : ℚ) (s : Store) :
    Except HTTPException Account × Store :=
  if amount ≤ 0 then
    (.error ⟨400, "Deposit amount must be positive."⟩, s)
  else
    match findByNumber s account_number with
    | none => (.error ⟨404, "Account not found"⟩, s)
    | some account =>
      let new_balance := account.balance + amount
      (.ok { account with balance := new_balance },
        updateBalance s account_number new_balance)

/-- `withdraw` (src/main.py:138-163). -/
def withdraw (account_number : String) (amount : ℚ) (s : Store) :
    Except HTTPException Account × Store :=
  if amount ≤ 0 then
    (.error ⟨400, "Withdrawal amount must be positive."⟩, s)
  else
    match findByNumber s account_number with
    | none => (.error ⟨404, "Account not found"⟩, s)
    | some account =>
      if account.balance < amount then
        (.error ⟨400, "Insufficient funds"⟩, s)
      else
        let new_balance := account.balance - amount
        (.ok { account with balance := new_balance },
          updateBalance s account_number new_balance)

/-- `transfer_funds` (src/main.py:165-208).  Any `HTTPException` raised inside
the `try` block triggers `conn.rollback()`, so every error path returns the
input store unchanged; on success both balance updates are committed together. -/
def transfer_funds (t : Transfer) (s : Store) :
    Except HTTPException TransferResult × Store :=
  if t.from_account_number = t.to_account_number then
    (.error ⟨400, "Cannot transfer funds to the same account."⟩, s)
  else if t.amount ≤ 0 then
    (.error ⟨400, "Transfer amount must be positive."⟩, s)
  else
    match findByNumber s t.from_account_number with
    | none => (.error ⟨404, "Sender account not found."⟩, s)
    | some from_account =>
      if from_account.balance < t.amount then
        (.error ⟨400, "Insufficient funds in sender account."⟩, s)
      else
        match findByNumber s t.to_account_number with
        | none => (.error ⟨404, "Receiver account not found."⟩, s)
        | some to_account =>
          let from_new_balance := from_account.balance - t.amount
          let to_new_balance := to_account.balance + t.amount
          let s1 := updateBalance s t.from_account_number from_new_balance
          let s2 := updateBalance s1 t.to_account_number to_new_balance
          (.ok ⟨"Transfer successful", t.from_account_number, t.to_account_number, t.amount⟩, s2)

/-- The balance the store reports for a given account number. -/
def balanceOf (s : Store) (number : String) : Option ℚ :=
  (findByNumber s number).map (fun a => a.balance)

/-! ### Store lemmas -/

theorem findByNumber_eq_some_number {s : Store} {n : String} {a : Account}
    (h : findByNumber s n = some a) : a.account_number = n := by
  have := List.find?_some h
  exact beq_iff_eq.mp this

theorem mem_of_findByNumber {s : Store} {n : String} {a : Account}
    (h : findByNumber s n = some a) : a ∈ s :=
  List.mem_of_find?_eq_some h

theorem findByNumber_updateBalance (s : Store) (n m : String) (b : ℚ) :
    findByNumber (updateBalance s n b) m
      = (findByNumber s m).map
          (fun a => if a.account_number == n then { a with balance := b } else a) := by
  unfold findByNumber updateBalance
  rw [List.find?_map]
  have hp : ((fun a : Account => a.account_number == m) ∘ fun a : Account =>
        if a.account_number == n then { a with balance := b } else a)
      = fun a : Account => a.account_number == m := by
    funext a
    by_cases h : a.account_number = n <;> simp [h, Function.comp]
  rw [hp]

theorem findByNumber_updateBalance_self {s : Store} {n : String} {a : Account} (b : ℚ)
    (hf : findByNumber s n = some a) :
    findByNumber (updateBalance s n b) n = some { a with balance := b } := by
  rw [findByNumber_updateBalance, hf]
  simp [findByNumber_eq_some_number hf]

theorem findByNumber_updateBalance_ne (s : Store) {n m : String} (b : ℚ) (h : m ≠ n) :
    findByNumber (updateBalance s n b) m = findByNumber s m := by
  rw [findByNumber_updateBalance]
  cases hf : findByNumber s m with
  | none => rfl
  | some a =>
    have := findByNumber_eq_some_number hf
    simp [this, h]

/-! ### Claims about deposit and withdraw -/

/-- **C6.** `deposit(number, amount)`: a non-positive amount fails with the 400
InvalidAmount error; a missing account fails with 404 NotFound; otherwise the
new balance `balance + amount` is persisted and the stored account is returned
with the updated balance and all other fields as stored. -/
theorem deposit_spec (number : String) (amount : ℚ) (s : Store) :
    (amount ≤ 0 →
      deposit number amount s = (.error ⟨400, "Deposit amount must be positive."⟩, s)) ∧
    (0 < amount → findByNumber s number = none →
      deposit number amount s = (.error ⟨404, "Account not found"⟩, s)) ∧
    (∀ a, 0 < amount → findByNumber s number = some a →
      deposit number amount s =
        (.ok { a with balance := a.balance + amount },
          updateBalance s number (a.balance + amount))) := by
  refine ⟨fun h => ?_, fun h hn => ?_, fun a h ha => ?_⟩
  · simp [deposit, h]
  · simp [deposit, not_le.mpr h, hn]
  · simp [deposit, not_le.mpr h, ha]

/-- **C6** witness: depositing 150 onto a stored balance of 200 yields 350. -/
theorem deposit_spec_witness :
    deposit "0000000001" 150 [⟨1, "0000000001", "David", 200⟩] =
      (.ok ⟨1, "0000000001", "David", 350⟩, [⟨1, "0000000001", "David", 350⟩]) := by
  have h := (deposit_spec "0000000001" 150 [⟨1, "0000000001", "David", 200⟩]).2.2
    ⟨1, "0000000001", "David", 200⟩ (by norm_num) (by with_unfolding_all rfl)
  rw [h]
  with_unfolding_all rfl

/-- **C5.** `withdraw(number, amount)`: a non-positive amount fails with the 400
InvalidAmount error; an existing account with balance `< amount` fails with 400
"Insufficient funds" and the store is unchanged; otherwise (balance `≥ amount`,
equality included) the new balance `balance - amount` is persisted and the
account is returned with the updated balance. -/
theorem withdraw_spec (number : String) (amount : ℚ) (s : Store) :
    (amount ≤ 0 →
      withdraw number amount s = (.error ⟨400, "Withdrawal amount must be positive."⟩, s)) ∧
    (∀ a, 0 < amount → findByNumber s number = some a → a.balance < amount →
      withdraw number amount s = (.error ⟨400, "Insufficient funds"⟩, s)) ∧
    (∀ a, 0 < amount → findByNumber s number = some a → amount ≤ a.balance →
      withdraw number amount s =
        (.ok { a with balance := a.balance - amount },
          updateBalance s number (a.balance - amount))) := by
  refine ⟨fun h => ?_, fun a h ha hb => ?_, fun a h ha hb => ?_⟩
  · simp [withdraw, h]
  · simp [withdraw, not_le.mpr h, ha, hb]
  · simp [withdraw, not_le.mpr h, ha, not_lt.mpr hb]

/-- **C5** witness: withdrawing the full balance of 100 succeeds and leaves 0;
the theorem is applied with `balance = amount = 100`. -/
theorem withdraw_spec_witness :
    withdraw "0000000001" 100 [⟨1, "0000000001", "Eve", 100⟩] =
      (.ok ⟨1, "0000000001", "Eve", 0⟩, [⟨1, "0000000001", "Eve", 0⟩]) := by
  have h := (withdraw_spec "0000000001" 100 [⟨1, "0000000001", "Eve", 100⟩]).2.2
    ⟨1, "0000000001", "Eve", 100⟩ (by norm_num) (by with_unfolding_all rfl) le_rfl
  rw [h]
  with_unfolding_all rfl

/-- **C10.** In both `deposit` and `withdraw`, the positivity check on the
amount precedes the account lookup: for every non-positive amount the 400
"must be positive" error results for every store, in particular for stores
holding no account with the given number, so the outcome never depends on the
store contents (the lookup would have yielded 404 NotFound). -/
theorem amount_check_precedes_lookup (number : String) (amount : ℚ) (s : Store)
    (h : amount ≤ 0) :
    deposit number amount s = (.error ⟨400, "Deposit amount must be positive."⟩, s) ∧
    withdraw number amount s = (.error ⟨400, "Withdrawal amount must be positive."⟩, s) := by
  constructor
  · simp [deposit, h]
  · simp [withdraw, h]

/-- **C10** witness: amount 0 on the empty store (no account exists at all)
still yields the 400 validation error, not 404. -/
theorem amount_check_precedes_lookup_witness :
    deposit "9999999999" 0 [] = (.error ⟨400, "Deposit amount must be positive."⟩, []) ∧
    withdraw "9999999999" 0 [] = (.error ⟨400, "Withdrawal amount must be positive."⟩, []) :=
  amount_check_precedes_lookup "9999999999" 0 [] le_rfl

/-! ### Claims about transfer -/

/-- **C1.** Every successful transfer conserves the total of the two balances:
the sender ends at `balance - amount`, the receiver at `balance + amount`, and
the sum of the two post-balances equals the sum of the two pre-balances. -/
theorem transfer_conserves_funds (t : Transfer) (s : Store) (r : TransferResult) (s' : Store)
    (h : transfer_funds t s = (Except.ok r, s')) :
    ∃ bf bt, balanceOf s t.from_account_number = some bf ∧
      balanceOf s t.to_account_number = some bt ∧
      balanceOf s' t.from_account_number = some (bf - t.amount) ∧
      balanceOf s' t.to_account_number = some (bt + t.amount) ∧
      (bf - t.amount) + (bt + t.amount) = bf + bt := by
  by_cases h1 : t.from_account_number = t.to_account_number
  · simp [transfer_funds, h1] at h
  by_cases h2 : t.amount ≤ 0
  · simp [transfer_funds, h1, h2] at h
  cases hf : findByNumber s t.from_account_number with
  | none => simp [transfer_funds, h1, h2, hf] at h
  | some fa =>
    by_cases h3 : fa.balance < t.amount
    · simp [transfer_funds, h1, h2, hf, h3] at h
    cases ht : findByNumber s t.to_account_number with
    | none => simp [transfer_funds, h1, h2, hf, h3, ht] at h
    | some ta =>
      have h' : transfer_funds t s =
          (.ok ⟨"Transfer successful", t.from_account_number, t.to_account_number, t.amount⟩,
            updateBalance (updateBalance s t.from_account_number (fa.balance - t.amount))
              t.to_account_number (ta.balance + t.amount)) := by
        simp [transfer_funds, h1, h2, hf, h3, ht]
      rw [h'] at h
      have hs : s' = updateBalance (updateBalance s t.from_account_number (fa.balance - t.amount))
          t.to_account_number (ta.balance + t.amount) := ((Prod.ext_iff.mp h).2).symm
      refine ⟨fa.balance, ta.balance, ?_, ?_, ?_, ?_, by ring⟩
      · simp [balanceOf, hf]
      · simp [balanceOf, ht]
      · have hfrom : findByNumber s' t.from_account_number =
            some { fa with balance := fa.balance - t.amount } := by
          rw [hs, findByNumber_updateBalance_ne _ _ h1,
            findByNumber_updateBalance_self _ hf]
        simp [balanceOf, hfrom]
      · have hto₁ : findByNumber (updateBalance s t.from_account_number
            (fa.balance - t.amount)) t.to_account_number =
            findByNumber s t.to_account_number :=
          findByNumber_updateBalance_ne _ _ (fun he => h1 he.symm)
        have hto : findByNumber s' t.to_account_number =
            some { ta with balance := ta.balance + t.amount } := by
          rw [hs, findByNumber_updateBalance_self _ (hto₁.trans ht)]
        simp [balanceOf, hto]

/-- **C1** witness: transferring 200 from a balance of 1000 to a balance of
500 leaves 800 and 700, the sum 1500 unchanged. -/
theorem transfer_conserves_funds_witness :
    ∃ bf bt,
      balanceOf [⟨1, "0000000001", "Alice", 1000⟩, ⟨2, "0000000002", "Bob", 500⟩]
        "0000000001" = some bf ∧
      balanceOf [⟨1, "0000000001", "Alice", 1000⟩, ⟨2, "0000000002", "Bob", 500⟩]
        "0000000002" = some bt ∧
      balanceOf [⟨1, "0000000001", "Alice", 800⟩, ⟨2, "0000000002", "Bob", 700⟩]
        "0000000001" = some (bf - 200) ∧
      balanceOf [⟨1, "0000000001", "Alice", 800⟩, ⟨2, "0000000002", "Bob", 700⟩]
        "0000000002" = some (bt + 200) ∧
      (bf - 200) + (bt + 200) = bf + bt :=
  transfer_conserves_funds ⟨"0000000001", "0000000002", 200⟩
    [⟨1, "0000000001", "Alice", 1000⟩, ⟨2, "0000000002", "Bob", 500⟩]
    ⟨"Transfer successful", "0000000001", "0000000002", 200⟩
    [⟨1, "0000000001", "Alice", 800⟩, ⟨2, "0000000002", "Bob", 700⟩]
    (by with_unfolding_all rfl)

/-- The conjunction of the five transfer preconditions (src/main.py:167-186). -/
def transferPre (t : Transfer) (s : Store) : Prop :=
  t.from_account_number ≠ t.to_account_number ∧ 0 < t.amount ∧
    ∃ fa, findByNumber s t.from_account_number = some fa ∧ t.amount ≤ fa.balance ∧
      ∃ ta, findByNumber s t.to_account_number = some ta

/-- **C2.** Transfer is all-or-nothing: whenever any precondition fails the
operation returns one of the five precondition errors and the store — hence
the balance of every account — is exactly the input store; no state with the
debit applied but not the credit is ever produced. -/
theorem transfer_all_or_nothing (t : Transfer) (s : Store) (h : ¬ transferPre t s) :
    ∃ e, transfer_funds t s = (Except.error e, s) ∧
      (e = ⟨400, "Cannot transfer funds to the same account."⟩ ∨
       e = ⟨400, "Transfer amount must be positive."⟩ ∨
       e = ⟨404, "Sender account not found."⟩ ∨
       e = ⟨400, "Insufficient funds in sender account."⟩ ∨
       e = ⟨404, "Receiver account not found."⟩) := by
  by_cases h1 : t.from_account_number = t.to_account_number
  · exact ⟨_, by simp [transfer_funds, h1], Or.inl rfl⟩
  by_cases h2 : t.amount ≤ 0
  · exact ⟨_, by simp [transfer_funds, h1, h2], Or.inr (Or.inl rfl)⟩
  cases hf : findByNumber s t.from_account_number with
  | none => exact ⟨_, by simp [transfer_funds, h1, h2, hf], Or.inr (Or.inr (Or.inl rfl))⟩
  | some fa =>
    by_cases h3 : fa.balance < t.amount
    · exact ⟨_, by simp [transfer_funds, h1, h2, hf, h3],
        Or.inr (Or.inr (Or.inr (Or.inl rfl)))⟩
    cases ht : findByNumber s t.to_account_number with
    | none => exact ⟨_, by simp [transfer_funds, h1, h2, hf, h3, ht],
        Or.inr (Or.inr (Or.inr (Or.inr rfl)))⟩
    | some ta =>
      exact absurd ⟨h1, not_le.mp h2, fa, hf, not_lt.mp h3, ta, ht⟩ h

/-- **C2** witness: a self-transfer request violates the preconditions and
leaves the (empty) store untouched with one of the five errors. -/
theorem transfer_all_or_nothing_witness :
    ∃ e, transfer_funds ⟨"0000000001", "0000000001", 100⟩ [] = (Except.error e, []) ∧
      (e = ⟨400, "Cannot transfer funds to the same account."⟩ ∨
       e = ⟨400, "Transfer amount must be positive."⟩ ∨
       e = ⟨404, "Sender account not found."⟩ ∨
       e = ⟨400, "Insufficient funds in sender account."⟩ ∨
       e = ⟨404, "Receiver account not found."⟩) :=
  transfer_all_or_nothing ⟨"0000000001", "0000000001", 100⟩ [] (fun hp => hp.1 rfl)

/-- **C3.** The transfer preconditions are checked in the source's exact order
with the first failure winning: (1) same account, (2) non-positive amount,
(3) sender missing, (4) insufficient funds, (5) receiver missing.  A
self-transfer always fails with the same-account error regardless of amount,
balance, or account existence, and insufficient funds wins over a missing
receiver. -/
theorem transfer_precondition_order (t : Transfer) (s : Store) :
    (t.from_account_number = t.to_account_number →
      transfer_funds t s = (.error ⟨400, "Cannot transfer funds to the same account."⟩, s)) ∧
    (t.from_account_number ≠ t.to_account_number → t.amount ≤ 0 →
      transfer_funds t s = (.error ⟨400, "Transfer amount must be positive."⟩, s)) ∧
    (t.from_account_number ≠ t.to_account_number → 0 < t.amount →
      findByNumber s t.from_account_number = none →
      transfer_funds t s = (.error ⟨404, "Sender account not found."⟩, s)) ∧
    (∀ fa, t.from_account_number ≠ t.to_account_number → 0 < t.amount →
      findByNumber s t.from_account_number = some fa → fa.balance < t.amount →
      transfer_funds t s = (.error ⟨400, "Insufficient funds in sender account."⟩, s)) ∧
    (∀ fa, t.from_account_number ≠ t.to_account_number → 0 < t.amount →
      findByNumber s t.from_account_number = some fa → t.amount ≤ fa.balance →
      findByNumber s t.to_account_number = none →
      transfer_funds t s = (.error ⟨404, "Receiver account not found."⟩, s)) := by
  refine ⟨fun h1 => ?_, fun h1 h2 => ?_, fun h1 h2 hf => ?_,
    fun fa h1 h2 hf h3 => ?_, fun fa h1 h2 hf h3 ht => ?_⟩
  · simp [transfer_funds, h1]
  · simp [transfer_funds, h1, h2]
  · simp [transfer_funds, h1, not_le.mpr h2, hf]
  · simp [transfer_funds, h1, not_le.mpr h2, hf, h3]
  · simp [transfer_funds, h1, not_le.mpr h2, hf, not_lt.mpr h3, ht]

/-- **C3** witness: a self-transfer of a negative amount between accounts that
do not even exist fails with the same-account error (check 1 wins). -/
theorem transfer_precondition_order_witness :
    transfer_funds ⟨"0000000007", "0000000007", -5⟩ [] =
      (.error ⟨400, "Cannot transfer funds to the same account."⟩, []) :=
  (transfer_precondition_order ⟨"0000000007", "0000000007", -5⟩ []).1 rfl

/-! ### Claims about account creation -/

/-- **C7** counterexample: a create request with the nonnegative deposit 0
whose generated account number collides with an existing row does not succeed
— the UNIQUE constraint makes it fail with a 500 storage error. -/
theorem create_account_collision :
    create_account "Bob" 0 "0000000000" [⟨1, "0000000000", "Alice", 5⟩] =
      (.error ⟨500, "Failed to create account due to a database error: UNIQUE constraint failed: accounts.account_number"⟩,
        [⟨1, "0000000000", "Alice", 5⟩]) := by
  with_unfolding_all rfl

/-- **C7** (amended).  A create request with `initial_deposit < 0` fails with
the 400 "cannot be negative" error and the store is unchanged (no account is
created); otherwise, provided the generated account number does not collide
with an existing row, creation succeeds and the returned (and stored) account
carries `balance = initial_deposit`. -/
theorem create_account_spec (holder : String) (initial_deposit : ℚ) (number : String)
    (s : Store) :
    (initial_deposit < 0 → create_account holder initial_deposit number s =
      (.error ⟨400, "Initial deposit cannot be negative."⟩, s)) ∧
    (0 ≤ initial_deposit → findByNumber s number = none →
      create_account holder initial_deposit number s =
        (.ok ⟨nextId s, number, holder, initial_deposit⟩,
          s ++ [⟨nextId s, number, holder, initial_deposit⟩])) := by
  refine ⟨fun h => ?_, fun h hn => ?_⟩
  · simp [create_account, h]
  · simp [create_account, not_lt.mpr h, hn]

/-- **C7** witness: creating "Aswin" with deposit 100 on the empty store
succeeds with balance 100 (and with the default deposit 0 the guard passes). -/
theorem create_account_spec_witness :
    create_account "Aswin" 100 "0000000003" [] =
      (.ok ⟨1, "0000000003", "Aswin", 100⟩, [⟨1, "0000000003", "Aswin", 100⟩]) := by
  exact (create_account_spec "Aswin" 100 "0000000003" []).2 (by norm_num) rfl

/-! ### Frame property -/

/-- Row-wise frame relation: `s'` has the same rows as `s` in the same order,
each with identical `id`, `account_number` and `account_holder`, and with the
balance also unchanged whenever the row's number is not among the account
numbers `names` named by the request. -/
def FramePreserves (names : List String) (s s' : Store) : Prop :=
  List.Forall₂ (fun a a' => a'.id = a.id ∧ a'.account_number = a.account_number ∧
    a'.account_holder = a.account_holder ∧
    (a.account_number ∉ names → a'.balance = a.balance)) s s'

theorem framePreserves_refl (names : List String) (s : Store) : FramePreserves names s s := by
  unfold FramePreserves
  exact List.forall₂_same.mpr (fun _ _ => ⟨rfl, rfl, rfl, fun _ => rfl⟩)

theorem framePreserves_updateBalance (names : List String) (s : Store) {n : String}
    (b : ℚ) (hn : n ∈ names) : FramePreserves names s (updateBalance s n b) := by
  unfold FramePreserves updateBalance
  rw [List.forall₂_map_right_iff]
  refine List.forall₂_same.mpr (fun a _ => ?_)
  by_cases h : a.account_number = n
  · rw [if_pos (beq_iff_eq.mpr h)]
    exact ⟨rfl, rfl, rfl, fun hmem => absurd hn (h ▸ hmem)⟩
  · rw [if_neg (by simp [h])]
    exact ⟨rfl, rfl, rfl, fun _ => rfl⟩

theorem framePreserves_trans {names : List String} :
    ∀ {s₁ s₂ s₃ : Store}, FramePreserves names s₁ s₂ → FramePreserves names s₂ s₃ →
      FramePreserves names s₁ s₃ := by
  intro s₁ s₂ s₃ h₁ h₂
  induction h₁ generalizing s₃ with
  | nil => exact h₂
  | @cons a b l₁ l₂ hab _ ih =>
    cases h₂ with
    | @cons _ c _ l₃ hbc h' =>
      refine List.Forall₂.cons ⟨?_, ?_, ?_, ?_⟩ (ih h')
      · exact hbc.1.trans hab.1
      · exact hbc.2.1.trans hab.2.1
      · exact hbc.2.2.1.trans hab.2.2.1
      · intro hm
        have hb : b.account_number ∉ names := by rw [hab.2.1]; exact hm
        rw [hbc.2.2.2 hb, hab.2.2.2 hm]

/-- **C8.** Deposit, withdraw and transfer mutate only the balance of the
account(s) their request names: whatever the outcome, every row keeps its
`id`, `account_number` and `account_holder`, and every row whose number is not
named in the request keeps its balance. -/
theorem operations_mutate_only_balance (number : String) (amount : ℚ) (t : Transfer)
    (s : Store) :
    FramePreserves [number] s (deposit number amount s).2 ∧
    FramePreserves [number] s (withdraw number amount s).2 ∧
    FramePreserves [t.from_account_number, t.to_account_number] s (transfer_funds t s).2 := by
  refine ⟨?_, ?_, ?_⟩
  · by_cases h : amount ≤ 0
    · have : (deposit number amount s).2 = s := by simp [deposit, h]
      rw [this]; exact framePreserves_refl _ _
    · cases hf : findByNumber s number with
      | none =>
        have : (deposit number amount s).2 = s := by simp [deposit, h, hf]
        rw [this]; exact framePreserves_refl _ _
      | some a =>
        have : (deposit number amount s).2 = updateBalance s number (a.balance + amount) := by
          simp [deposit, h, hf]
        rw [this]
        exact framePreserves_updateBalance _ _ _ (List.mem_singleton.mpr rfl)
  · by_cases h : amount ≤ 0
    · have : (withdraw number amount s).2 = s := by simp [withdraw, h]
      rw [this]; exact framePreserves_refl _ _
    · cases hf : findByNumber s number with
      | none =>
        have : (withdraw number amount s).2 = s := by simp [withdraw, h, hf]
        rw [this]; exact framePreserves_refl _ _
      | some a =>
        by_cases h3 : a.balance < amount
        · have : (withdraw number amount s).2 = s := by simp [withdraw, h, hf, h3]
          rw [this]; exact framePreserves_refl _ _
        · have : (withdraw number amount s).2 =
              updateBalance s number (a.balance - amount) := by
            simp [withdraw, h, hf, h3]
          rw [this]
          exact framePreserves_updateBalance _ _ _ (List.mem_singleton.mpr rfl)
  · by_cases h1 : t.from_account_number = t.to_account_number
    · have : (transfer_funds t s).2 = s := by simp [transfer_funds, h1]
      rw [this]; exact framePreserves_refl _ _
    by_cases h2 : t.amount ≤ 0
    · have : (transfer_funds t s).2 = s := by simp [transfer_funds, h1, h2]
      rw [this]; exact framePreserves_refl _ _
    cases hf : findByNumber s t.from_account_number with
    | none =>
      have : (transfer_funds t s).2 = s := by simp [transfer_funds, h1, h2, hf]
      rw [this]; exact framePreserves_refl _ _
    | some fa =>
      by_cases h3 : fa.balance < t.amount
      · have : (transfer_funds t s).2 = s := by simp [transfer_funds, h1, h2, hf, h3]
        rw [this]; exact framePreserves_refl _ _
      cases ht : findByNumber s t.to_account_number with
      | none =>
        have : (transfer_funds t s).2 = s := by
          simp [transfer_funds, h1, h2, hf, h3, ht]
        rw [this]; exact framePreserves_refl _ _
      | some ta =>
        have : (transfer_funds t s).2 =
            updateBalance (updateBalance s t.from_account_number (fa.balance - t.amount))
              t.to_account_number (ta.balance + t.amount) := by
          simp [transfer_funds, h1, h2, hf, h3, ht]
        rw [this]
        exact framePreserves_trans
          (framePreserves_updateBalance _ _ _ (by simp))
          (framePreserves_updateBalance _ _ _ (by simp))

/-! ### Global balance invariant -/

/-- Every balance in the store is nonnegative. -/
def allNonneg (s : Store) : Prop := ∀ a ∈ s, 0 ≤ a.balance

theorem allNonneg_updateBalance {s : Store} {b : ℚ} (n : String)
    (hs : allNonneg s) (hb : 0 ≤ b) : allNonneg (updateBalance s n b) := by
  intro a ha
  rcases List.mem_map.mp ha with ⟨a₀, ha₀, rfl⟩
  by_cases h : a₀.account_number = n
  · simpa [h] using hb
  · simpa [h] using hs a₀ ha₀

/-- States reachable from the empty table by any sequence of the four
operations, each step keeping the store the operation leaves behind (a failed
operation rolls back to the unchanged store, so this also covers runs where
every request satisfies its preconditions). -/
inductive Reachable : Store → Prop where
  | empty : Reachable []
  | create (holder : String) (d : ℚ) (number : String) {s : Store} :
      Reachable s → Reachable (create_account holder d number s).2
  | dep (number : String) (amount : ℚ) {s : Store} :
      Reachable s → Reachable (deposit number amount s).2
  | wd (number : String) (amount : ℚ) {s : Store} :
      Reachable s → Reachable (withdraw number amount s).2
  | xfer (t : Transfer) {s : Store} :
      Reachable s → Reachable (transfer_funds t s).2

/-- **C4.** In every store reachable from the empty one by create-account,
deposit, withdraw and transfer operations, every account has `balance ≥ 0`:
create rejects negative initial deposits, withdraw and transfer reject amounts
exceeding the source balance, and deposit only adds a positive amount. -/
theorem reachable_balance_nonneg {s : Store} (h : Reachable s) : allNonneg s := by
  induction h with
  | empty => intro a ha; cases ha
  | @create holder d number s _ ih =>
    by_cases hd : d < 0
    · have : (create_account holder d number s).2 = s := by simp [create_account, hd]
      rw [this]; exact ih
    by_cases hex : (findByNumber s number).isSome
    · have : (create_account holder d number s).2 = s := by
        simp [create_account, hd, hex]
      rw [this]; exact ih
    · have : (create_account holder d number s).2 =
          s ++ [⟨nextId s, number, holder, d⟩] := by
        simp [create_account, hd, hex]
      rw [this]
      intro a ha
      rcases List.mem_append.mp ha with ha | ha
      · exact ih a ha
      · rw [List.mem_singleton.mp ha]
        exact not_lt.mp hd
  | @dep number amount s _ ih =>
    by_cases h : amount ≤ 0
    · have : (deposit number amount s).2 = s := by simp [deposit, h]
      rw [this]; exact ih
    cases hf : findByNumber s number with
    | none =>
      have : (deposit number amount s).2 = s := by simp [deposit, h, hf]
      rw [this]; exact ih
    | some a =>
      have hd : (deposit number amount s).2 =
          updateBalance s number (a.balance + amount) := by simp [deposit, h, hf]
      rw [hd]
      have ha0 : 0 ≤ a.balance := ih a (mem_of_findByNumber hf)
      have hpos : 0 < amount := not_le.mp h
      exact allNonneg_updateBalance _ ih (by linarith)
  | @wd number amount s _ ih =>
    by_cases h : amount ≤ 0
    · have : (withdraw number amount s).2 = s := by simp [withdraw, h]
      rw [this]; exact ih
    cases hf : findByNumber s number with
    | none =>
      have : (withdraw number amount s).2 = s := by simp [withdraw, h, hf]
      rw [this]; exact ih
    | some a =>
      by_cases h3 : a.balance < amount
      · have : (withdraw number amount s).2 = s := by simp [withdraw, h, hf, h3]
        rw [this]; exact ih
      · have hw : (withdraw number amount s).2 =
            updateBalance s number (a.balance - amount) := by simp [withdraw, h, hf, h3]
        rw [hw]
        have hge : amount ≤ a.balance := not_lt.mp h3
        exact allNonneg_updateBalance _ ih (by linarith)
  | @xfer t s _ ih =>
    by_cases h1 : t.from_account_number = t.to_account_number
    · have : (transfer_funds t s).2 = s := by simp [transfer_funds, h1]
      rw [this]; exact ih
    by_cases h2 : t.amount ≤ 0
    · have : (transfer_funds t s).2 = s := by simp [transfer_funds, h1, h2]
      rw [this]; exact ih
    cases hf : findByNumber s t.from_account_number with
    | none =>
      have : (transfer_funds t s).2 = s := by simp [transfer_funds, h1, h2, hf]
      rw [this]; exact ih
    | some fa =>
      by_cases h3 : fa.balance < t.amount
      · have : (transfer_funds t s).2 = s := by simp [transfer_funds, h1, h2, hf, h3]
        rw [this]; exact ih
      cases ht : findByNumber s t.to_account_number with
      | none =>
        have : (transfer_funds t s).2 = s := by
          simp [transfer_funds, h1, h2, hf, h3, ht]
        rw [this]; exact ih
      | some ta =>
        have hx : (transfer_funds t s).2 =
            updateBalance (updateBalance s t.from_account_number (fa.balance - t.amount))
              t.to_account_number (ta.balance + t.amount) := by
          simp [transfer_funds, h1, h2, hf, h3, ht]
        rw [hx]
        have hfa : 0 ≤ fa.balance := ih fa (mem_of_findByNumber hf)
        have hta : 0 ≤ ta.balance := ih ta (mem_of_findByNumber ht)
        have hge : t.amount ≤ fa.balance := not_lt.mp h3
        have hpos : 0 < t.amount := not_le.mp h2
        refine allNonneg_updateBalance _ ?_ (by linarith)
        exact allNonneg_updateBalance _ ih (by linarith)

/-- **C4** witness: the store reached by creating an account with deposit 0 and
then depositing 100 has every balance nonnegative. -/
theorem reachable_balance_nonneg_witness :
    allNonneg (deposit "0000000001" 100 (create_account "Aswin" 0 "0000000001" []).2).2 :=
  reachable_balance_nonneg
    (Reachable.dep "0000000001" 100 (Reachable.create "Aswin" 0 "0000000001" Reachable.empty))

end Banking
